import Mathlib

/-!
Verification development for the savings-goal ledger and analytics backend
(`backend/app`). The Python source is shallowly embedded: SQLAlchemy rows
become structures, the database becomes explicit lists, money (`Numeric`)
becomes `ℚ`, and Python `datetime` values become a proleptic-Gregorian
ordinal (as in `datetime.date.toordinal`) plus a rational time-of-day.
-/

set_option allowUnsafeReducibility true

attribute [local semireducible] Rat.add Rat.inv Rat.mul Rat.sub Rat.div Rat.neg

namespace Savings

/-! ## Calendar: embedding of the pieces of Python `datetime` used by the code
(`toordinal`/`fromordinal`, `replace(day=1)`, `timedelta` day arithmetic,
`strftime("%Y-%m")`, `(a - b).days`). -/

def isLeap (y : Nat) : Bool :=
  (y % 4 == 0 && y % 100 != 0) || y % 400 == 0

/-- Days in the months of a non-leap year, cumulative (CPython `_DAYS_BEFORE_MONTH`). -/
def daysBeforeMonthList : List Nat :=
  [0, 31, 59, 90, 120, 151, 181, 212, 243, 273, 304, 334]

/-- Days in month `m` of a non-leap year (CPython `_DAYS_IN_MONTH`). -/
def daysInMonthBase : List Nat :=
  [31, 28, 31, 30, 31, 30, 31, 31, 30, 31, 30, 31]

def daysBeforeMonth (y m : Nat) : Nat :=
  daysBeforeMonthList.getD (m - 1) 0 + (if 2 < m && isLeap y then 1 else 0)

def daysBeforeYear (y : Nat) : Nat :=
  365 * (y - 1) + (y - 1) / 4 + (y - 1) / 400 - (y - 1) / 100

/-- CPython `date.toordinal`: day 1 is 0001-01-01. -/
def toOrdinal (y m d : Nat) : Nat :=
  daysBeforeYear y + daysBeforeMonth y m + d

/-- CPython `_ord2ymd` (inverse of `toordinal`). -/
def ordinalToDate (n : Nat) : Nat × Nat × Nat :=
  let n0 := n - 1
  let n400 := n0 / 146097
  let r1 := n0 % 146097
  let n100 := r1 / 36524
  let r2 := r1 % 36524
  let n4 := r2 / 1461
  let r3 := r2 % 1461
  let n1 := r3 / 365
  let r4 := r3 % 365
  let year := n400 * 400 + 1 + n100 * 100 + n4 * 4 + n1
  if n1 == 4 || n100 == 4 then
    (year - 1, 12, 31)
  else
    let leap := isLeap year
    let month := (r4 + 50) / 32
    let preceding :=
      daysBeforeMonthList.getD (month - 1) 0 + (if 2 < month && leap then 1 else 0)
    let mp :=
      if r4 < preceding then
        (month - 1,
          preceding -
            (daysInMonthBase.getD (month - 1 - 1) 0 +
              (if month - 1 == 2 && leap then 1 else 0)))
      else (month, preceding)
    (year, mp.1, r4 - mp.2 + 1)

/-- A Python `datetime`: proleptic-Gregorian ordinal of the date part plus the
time of day as a rational fraction of a day. -/
structure DateTime where
  ord : Nat
  frac : ℚ := 0
deriving DecidableEq, Repr

def DateTime.toRat (t : DateTime) : ℚ := (t.ord : ℚ) + t.frac

def mkDate (y m d : Nat) : DateTime := { ord := toOrdinal y m d }

/-- `dt.replace(day=1)`: same year/month/time of day, day set to 1. -/
def replaceDay1 (t : DateTime) : DateTime :=
  let ymd := ordinalToDate t.ord
  { ord := toOrdinal ymd.1 ymd.2.1 1, frac := t.frac }

/-- `dt.strftime("%Y-%m")` as a (year, month) pair. -/
def monthKey (t : DateTime) : Nat × Nat :=
  let ymd := ordinalToDate t.ord
  (ymd.1, ymd.2.1)

/-- `(b - a).days`: whole days in the timedelta, rounding toward minus infinity. -/
def daysBetween (a b : DateTime) : Int :=
  Int.floor (b.toRat - a.toRat)

/-! ## Data model (`models/goal.py`, `models/transaction.py`). Money columns
(`Numeric(12,2)`) are embedded as `ℚ`; ids as `Nat`; nullable columns as
`Option`. -/

inductive GoalStatus
  | active | completed | paused | cancelled
deriving DecidableEq, Repr

inductive TxType
  | deposit | withdrawal | transfer
deriving DecidableEq, Repr

inductive TxMethod
  | mpesa | bank | cash | card
deriving DecidableEq, Repr

inductive TxStatus
  | pending | completed | failed | cancelled
deriving DecidableEq, Repr

structure Goal where
  id : Nat
  user_id : Nat
  title : String := ""
  description : Option String := none
  target_amount : ℚ
  current_amount : ℚ := 0
  target_date : DateTime
  category : String := "other"
  priority : String := "medium"
  status : GoalStatus := .active
  auto_save_amount : Option ℚ := none
  auto_save_frequency : Option String := none
  created_at : DateTime := { ord := 1 }
  updated_at : DateTime := { ord := 1 }
  completed_at : Option DateTime := none
deriving DecidableEq, Repr

structure Txn where
  id : Nat
  user_id : Nat
  goal_id : Nat
  amount : ℚ
  transaction_type : TxType
  method : TxMethod
  status : TxStatus := .pending
  description : Option String := none
  reference_number : Option String := none
  mpesa_reference : Option String := none
  phone_number : Option String := none
  paybill_number : Option String := none
  account_number : Option String := none
  created_at : DateTime := { ord := 1 }
  processed_at : Option DateTime := none
deriving DecidableEq, Repr

/-- The relational store: the `goals` and `transactions` tables. -/
structure DB where
  goals : List Goal
  txs : List Txn
deriving DecidableEq, Repr

/-- Errors escaping the endpoints: `HTTPException`s raised deliberately, and
`nameError` for an unhandled Python `NameError` (surfaced by the framework as
a server error). -/
inductive ApiError
  | notFound (detail : String)
  | badRequest (detail : String)
  | nameError (detail : String)
deriving DecidableEq, Repr

/-! ## Transaction settlement (`api/transactions.py`). -/

/-- Embeds `process_mpesa_payment` (transactions.py lines 188-213): looks the
transaction up by id, marks it `completed` with `processed_at` and an
`mpesa_reference` (the generated receipt string is the `ref` parameter), and
credits the owning goal's `current_amount` by the transaction amount. The
source has no guard on the transaction's prior status and no goal-completion
check. -/
def process_mpesa_payment (tid : Nat) (now : DateTime) (ref : String) (db : DB) : DB :=
  match db.txs.find? (fun t => t.id == tid) with
  | none => db
  | some tx =>
    let txs' := db.txs.map (fun t =>
      if t.id == tid then
        { t with status := .completed, processed_at := some now,
                 mpesa_reference := some ref }
      else t)
    let goals' :=
      match db.goals.find? (fun g => g.id == tx.goal_id) with
      | none => db.goals
      | some _ => db.goals.map (fun g =>
          if g.id == tx.goal_id then
            { g with current_amount := g.current_amount + tx.amount, updated_at := now }
          else g)
    { goals := goals', txs := txs' }

/-- Embeds `check_mpesa_payment_status` (transactions.py lines 215-226): if the
transaction exists and is still `pending`, mark it `completed` and stamp
`processed_at`. The source never touches the goal's balance on this path. -/
def check_mpesa_payment_status (tid : Nat) (now : DateTime) (db : DB) : DB :=
  match db.txs.find? (fun t => t.id == tid) with
  | none => db
  | some tx =>
    if tx.status == .pending then
      { db with txs := db.txs.map (fun t =>
          if t.id == tid then { t with status := .completed, processed_at := some now }
          else t) }
    else db

/-- The body of `MPesaPaymentRequest` (schemas/transaction.py lines 23-28). -/
structure MPesaPaymentRequest where
  goal_id : Nat
  amount : ℚ
  phone_number : String := ""
  paybill_number : String := "522522"
  account_number : String := ""
deriving DecidableEq, Repr

/-- The `pending` transaction row inserted by `initiate_mpesa_payment`
(transactions.py lines 136-150). -/
def mkMpesaTx (uid newId : Nat) (now : DateTime) (p : MPesaPaymentRequest) (goalTitle : String) : Txn :=
  { id := newId, user_id := uid, goal_id := p.goal_id, amount := p.amount,
    transaction_type := .deposit, method := .mpesa, status := .pending,
    phone_number := some p.phone_number, paybill_number := some p.paybill_number,
    account_number := some p.account_number,
    description := some ("M-Pesa payment to " ++ goalTitle),
    created_at := now }

/-- Embeds the `initiate_mpesa_payment` endpoint (transactions.py lines
115-186). The external gateway call is a parameter: `Except.ok id` is a
successful STK push returning a `CheckoutRequestID`, `Except.error e` is the
call raising. On a raise the source sets the new transaction to `failed` and
re-raises as HTTP 400; it never touches the goal table. -/
def initiate_mpesa_payment (uid : Nat) (p : MPesaPaymentRequest)
    (gateway : Except String String) (newId : Nat) (now : DateTime) (db : DB) :
    DB × Except ApiError String :=
  match db.goals.find? (fun g => g.id == p.goal_id && g.user_id == uid) with
  | none => (db, .error (.notFound "Goal not found"))
  | some goal =>
    let tx := mkMpesaTx uid newId now p goal.title
    let db1 : DB := { db with txs := db.txs ++ [tx] }
    match gateway with
    | .ok checkoutId =>
      ({ db1 with txs := db1.txs.map (fun t =>
          if t.id == newId then { t with reference_number := some checkoutId } else t) },
        .ok "Payment initiated successfully")
    | .error e =>
      ({ db1 with txs := db1.txs.map (fun t =>
          if t.id == newId then { t with status := .failed } else t) },
        .error (.badRequest ("Payment initiation failed: " ++ e)))

/-! ## Goal CRUD (`api/goals.py`, `schemas/goal.py`). -/

/-- The body of `GoalUpdate` (schemas/goal.py lines 29-38): every field
optional, `none` meaning unset (pydantic `exclude_unset`). -/
structure GoalUpdate where
  title : Option String := none
  description : Option String := none
  target_amount : Option ℚ := none
  target_date : Option DateTime := none
  category : Option String := none
  priority : Option String := none
  status : Option GoalStatus := none
  auto_save_amount : Option ℚ := none
  auto_save_frequency : Option String := none
deriving DecidableEq, Repr

/-- The `setattr` loop of `update_goal` (goals.py lines 105-107): set exactly
the fields present in the request body. -/
def applyUpdate (g : Goal) (u : GoalUpdate) : Goal :=
  { g with
    title := u.title.getD g.title,
    description := (u.description.map some).getD g.description,
    target_amount := u.target_amount.getD g.target_amount,
    target_date := u.target_date.getD g.target_date,
    category := u.category.getD g.category,
    priority := u.priority.getD g.priority,
    status := u.status.getD g.status,
    auto_save_amount := (u.auto_save_amount.map some).getD g.auto_save_amount,
    auto_save_frequency := (u.auto_save_frequency.map some).getD g.auto_save_frequency }

/-- The goal-completion check of `update_goal` (goals.py lines 111-114): if
`current_amount >= target_amount` and the status is not already `completed`,
set the status to `completed` and stamp `completed_at`. -/
def completeCheck (g : Goal) (now : DateTime) : Goal :=
  if g.target_amount ≤ g.current_amount && !(g.status == .completed) then
    { g with status := .completed, completed_at := some now }
  else g

/-- Embeds the `update_goal` endpoint (goals.py lines 85-125): find the goal by
id and owner (404 otherwise), apply the submitted fields, stamp `updated_at`,
run the completion check, and persist. -/
def update_goal (uid gid : Nat) (u : GoalUpdate) (now : DateTime) (db : DB) :
    Except ApiError (DB × Goal) :=
  match db.goals.find? (fun g => g.id == gid && g.user_id == uid) with
  | none => .error (.notFound "Goal not found")
  | some goal =>
    let g1 := { applyUpdate goal u with updated_at := now }
    let g2 := completeCheck g1 now
    .ok ({ db with goals := db.goals.map (fun g => if g.id == gid then g2 else g) }, g2)

/-- Embeds the `get_goals` listing endpoint (goals.py lines 45-63): filter by
the authenticated user, optionally by status and category, then apply
`offset`/`limit`. -/
def get_goals (uid : Nat) (statusFilter : Option GoalStatus)
    (categoryFilter : Option String) (skip limit : Nat) (db : DB) : List Goal :=
  ((db.goals.filter (fun g =>
    g.user_id == uid
    && (match statusFilter with | some s => g.status == s | none => true)
    && (match categoryFilter with | some c => g.category == c | none => true))).drop
      skip).take limit

/-- Embeds the `get_goal` endpoint (goals.py lines 65-83): filter by goal id
and the authenticated user's id; 404 when no row matches. -/
def get_goal (uid gid : Nat) (db : DB) : Except ApiError Goal :=
  match db.goals.find? (fun g => g.id == gid && g.user_id == uid) with
  | some g => .ok g
  | none => .error (.notFound "Goal not found")

/-- Embeds the `get_transaction` endpoint (transactions.py lines 95-113). -/
def get_transaction (uid tid : Nat) (db : DB) : Except ApiError Txn :=
  match db.txs.find? (fun t => t.id == tid && t.user_id == uid) with
  | some t => .ok t
  | none => .error (.notFound "Transaction not found")

/-- Insertion step of sorting transactions by `created_at` descending
(`order_by(Transaction.created_at.desc())`). -/
def insertByCreatedDesc (t : Txn) : List Txn → List Txn
  | [] => [t]
  | u :: us =>
    if u.created_at.toRat ≤ t.created_at.toRat then t :: u :: us
    else u :: insertByCreatedDesc t us

def sortByCreatedDesc (l : List Txn) : List Txn :=
  l.foldr insertByCreatedDesc []

/-- Embeds the `get_transactions` listing endpoint (transactions.py lines
75-93): filter by the authenticated user, optionally by goal and status, order
by `created_at` descending, then apply `offset`/`limit`. -/
def get_transactions (uid : Nat) (goalFilter : Option Nat)
    (statusFilter : Option TxStatus) (skip limit : Nat) (db : DB) : List Txn :=
  let base := db.txs.filter (fun t =>
    t.user_id == uid
    && (match goalFilter with | some gid => t.goal_id == gid | none => true)
    && (match statusFilter with | some s => t.status == s | none => true))
  ((sortByCreatedDesc base).drop skip).take limit

/-! ## Analytics (`api/analytics.py`, `api/goals.py` lines 156-203). Python
float arithmetic on these decimal amounts is embedded as exact `ℚ`
arithmetic; every divisor reached below is shown nonzero where a claim
depends on it. -/

/-- The required daily savings computed identically at goals.py lines 176-180
and analytics.py lines 119-123:
`remaining / max(days_remaining, 1) if days_remaining > 0 else 0` with
`days_remaining = (target_date - now).days`. (The goals.py copy is computed
at line 180 but never returned — that endpoint fails at line 183; the
analytics.py copy is returned to callers.) -/
def daily_required_savings (g : Goal) (now : DateTime) : ℚ :=
  let days := daysBetween now g.target_date
  if 0 < days then (g.target_amount - g.current_amount) / ((max days 1 : Int) : ℚ)
  else 0

/-- The 30-day deposit velocity of analytics.py lines 126-134: completed
deposits for the goal with `created_at >= now - 30 days`, summed, divided
by 30. -/
def daily_average_savings (g : Goal) (now : DateTime) (db : DB) : ℚ :=
  let thirtyDaysAgo := now.toRat - 30
  let recent := ((db.txs.filter (fun t =>
    t.goal_id == g.id && t.transaction_type == .deposit && t.status == .completed
    && decide (thirtyDaysAgo ≤ t.created_at.toRat))).map (·.amount)).sum
  recent / 30

/-- One row of the user-level `get_goal_progress_analytics` response
(analytics.py lines 117-158). -/
structure GoalProgress where
  goal_id : Nat
  goal_title : String
  current_amount : ℚ
  target_amount : ℚ
  progress_percentage : ℚ
  days_remaining : Int
  daily_required_savings : ℚ
  daily_average_savings : ℚ
  predicted_completion : ℚ
  is_on_track : Bool
  velocity_trend : String
deriving DecidableEq, Repr

/-- Embeds the per-goal body of `get_goal_progress_analytics` (analytics.py
lines 117-158). `predicted_completion` carries the predicted completion
datetime as days (`DateTime.toRat`). -/
def goalProgressEntry (g : Goal) (now : DateTime) (db : DB) : GoalProgress :=
  let days := daysBetween now g.target_date
  let required := daily_required_savings g now
  let avg := daily_average_savings g now db
  { goal_id := g.id, goal_title := g.title,
    current_amount := g.current_amount, target_amount := g.target_amount,
    progress_percentage := g.current_amount / g.target_amount * 100,
    days_remaining := days,
    daily_required_savings := required,
    daily_average_savings := avg,
    predicted_completion :=
      if 0 < avg then now.toRat + (g.target_amount - g.current_amount) / avg
      else g.target_date.toRat,
    is_on_track := if 0 < required then decide (required ≤ avg) else true,
    velocity_trend := if required < avg then "increasing" else "decreasing" }

/-- Embeds the goal-level `get_goal_analytics` endpoint (goals.py lines
156-203). The goal is looked up by id and owner (404 when no row matches) and
the scalars of lines 175-180 are computed, but line 183 then evaluates
`db.query(Transaction)` although goals.py never imports `Transaction`, so
every call that passes the ownership check raises
`NameError: name 'Transaction' is not defined` before any response is built
(the framework surfaces it as a server error). The monthly-average and
on-track code at lines 188-203 is unreachable: the endpoint never returns a
`GoalAnalytics` response. -/
def get_goal_analytics (uid gid : Nat) (db : DB) : Except ApiError Unit :=
  match db.goals.find? (fun g => g.id == gid && g.user_id == uid) with
  | none => .error (.notFound "Goal not found")
  | some _ => .error (.nameError "name 'Transaction' is not defined")

/-- One `CategoryBreakdown` entry (schemas of analytics.py lines 75-83). -/
structure CategoryRow where
  category : String
  current_amount : ℚ
  target_amount : ℚ
  percentage : ℚ
deriving DecidableEq, Repr

/-- Embeds the category-breakdown block of `get_savings_overview`
(analytics.py lines 66-83): group the user's goals by category, sum current
and target amounts, and compute
`percentage = (total_saved or 0) / (total_target or 1) * 100`, where Python's
`or 1` replaces a zero target sum by 1. -/
def category_breakdown (uid : Nat) (db : DB) : List CategoryRow :=
  let gs := db.goals.filter (fun g => g.user_id == uid)
  ((gs.map (·.category)).dedup).map (fun c =>
    let cg := gs.filter (fun g => g.category == c)
    let saved := (cg.map (·.current_amount)).sum
    let target := (cg.map (·.target_amount)).sum
    { category := c, current_amount := saved, target_amount := target,
      percentage := saved / (if target == 0 then 1 else target) * 100 })

/-- One monthly-trend entry: the `strftime("%Y-%m")` label as a (year, month)
pair and the summed amount. -/
structure MonthlyTrend where
  month : Nat × Nat
  amount : ℚ
deriving DecidableEq, Repr

/-- Bucket `i` of the trend loop (analytics.py line 50):
`month_start = now.replace(day=1) - timedelta(days=30*i)`. -/
def trendWindowStart (now : DateTime) (i : Nat) : DateTime :=
  { ord := (replaceDay1 now).ord - 30 * i, frac := now.frac }

/-- The deposit sum of bucket `i` (analytics.py lines 51-59): completed
deposits of the user with `month_start <= created_at < month_start + 31 days`. -/
def trendWindowSum (uid : Nat) (now : DateTime) (db : DB) (i : Nat) : ℚ :=
  let ms := trendWindowStart now i
  let me : DateTime := { ms with ord := ms.ord + 31 }
  ((db.txs.filter (fun t =>
    t.user_id == uid && t.transaction_type == .deposit && t.status == .completed
    && decide (ms.toRat ≤ t.created_at.toRat)
    && decide (t.created_at.toRat < me.toRat))).map (·.amount)).sum

/-- Embeds the monthly-trend loop of `get_savings_overview` (analytics.py
lines 47-64 and the reversal at line 103): buckets `i = 0..11`, newest first,
reversed so the oldest bucket comes first. -/
def monthly_trends (uid : Nat) (now : DateTime) (db : DB) : List MonthlyTrend :=
  ((List.range 12).map (fun i =>
    { month := monthKey (trendWindowStart now i),
      amount := trendWindowSum uid now db i : MonthlyTrend })).reverse

/-! ## Spec-side definitions, written from the claims' words, to be compared
with the embedded code. -/

/-- Sum of the amounts of the `completed` deposit transactions for a goal. -/
def depositSum (gid : Nat) (txs : List Txn) : ℚ :=
  ((txs.filter (fun t =>
    t.goal_id == gid && t.transaction_type == .deposit && t.status == .completed)).map
    (·.amount)).sum

/-- Sum of the amounts of the `completed` withdrawal transactions for a goal. -/
def withdrawalSum (gid : Nat) (txs : List Txn) : ℚ :=
  ((txs.filter (fun t =>
    t.goal_id == gid && t.transaction_type == .withdrawal && t.status == .completed)).map
    (·.amount)).sum

/-- The ledger invariant of the claim: for every goal, completed deposits
minus completed withdrawals equal `current_amount`. -/
def ledgerInvariant (db : DB) : Prop :=
  ∀ g ∈ db.goals, g.current_amount = depositSum g.id db.txs - withdrawalSum g.id db.txs

instance (db : DB) : Decidable (ledgerInvariant db) :=
  inferInstanceAs (Decidable (∀ g ∈ db.goals, _))

/-- The claim's `DailyRequiredRate`:
`(target_amount - current_amount) / max(days_remaining, 1)` with
`days_remaining = max(target_date - now, 0)`, so an overdue goal owes the full
remaining amount immediately. -/
def dailyRequiredRateSpec (g : Goal) (now : DateTime) : ℚ :=
  let days := max (daysBetween now g.target_date) 0
  (g.target_amount - g.current_amount) / ((max days 1 : Int) : ℚ)

/-- The claim's per-calendar-month sum: completed deposits of the user whose
`created_at` falls in the calendar month labelled `ym`. -/
def calendarMonthSum (uid : Nat) (ym : Nat × Nat) (db : DB) : ℚ :=
  ((db.txs.filter (fun t =>
    t.user_id == uid && t.transaction_type == .deposit && t.status == .completed
    && monthKey t.created_at == ym)).map (·.amount)).sum

/-- The database restricted to one user's own rows: what a caller could see if
other users' records did not exist at all. -/
def restrictTo (uid : Nat) (db : DB) : DB :=
  { goals := db.goals.filter (fun g => g.user_id == uid),
    txs := db.txs.filter (fun t => t.user_id == uid) }

/-! ## Small read helpers over a database, used to phrase concrete facts. -/

def goalAmount (db : DB) (gid : Nat) : Option ℚ :=
  (db.goals.find? (fun g => g.id == gid)).map (·.current_amount)

def goalStatusOf (db : DB) (gid : Nat) : Option GoalStatus :=
  (db.goals.find? (fun g => g.id == gid)).map (·.status)

def goalCompletedAt (db : DB) (gid : Nat) : Option (Option DateTime) :=
  (db.goals.find? (fun g => g.id == gid)).map (·.completed_at)

def txStatusOf (db : DB) (tid : Nat) : Option TxStatus :=
  (db.txs.find? (fun t => t.id == tid)).map (·.status)

/-! ## Concrete instances for counterexamples and witnesses. -/

def dOct1 : DateTime := mkDate 2026 10 1
def dOct5 : DateTime := mkDate 2026 10 5
def dOct6 : DateTime := mkDate 2026 10 6
def dOct12 : DateTime := mkDate 2026 10 12
def dOct22 : DateTime := mkDate 2026 10 22
def dNov10 : DateTime := mkDate 2026 11 10

/-- A goal at 0 of 1000 with one pending 500 deposit. -/
def exGoalA : Goal :=
  { id := 1, user_id := 1, title := "Bike", target_amount := 1000,
    current_amount := 0, target_date := dNov10 }

def exTxA : Txn :=
  { id := 1, user_id := 1, goal_id := 1, amount := 500,
    transaction_type := .deposit, method := .mpesa, created_at := dOct1 }

def exDbA : DB := { goals := [exGoalA], txs := [exTxA] }

/-- A goal at 500 of 1000 with one pending 500 deposit: settling it reaches
the target exactly. -/
def exDbB : DB :=
  { goals := [{ exGoalA with current_amount := 500 }], txs := [exTxA] }

/-- A fully funded goal (1000 of 1000) with no transactions at all. -/
def exGoalC : Goal :=
  { id := 1, user_id := 1, title := "Laptop", target_amount := 1000,
    current_amount := 1000, target_date := dOct22 }

def exDbC : DB := { goals := [exGoalC], txs := [] }

/-- A goal whose target amount is 0 while 5 is already saved. -/
def exDbD : DB :=
  { goals := [{ id := 1, user_id := 1, title := "Zero", target_amount := 0,
                current_amount := 5, target_date := dNov10 }],
    txs := [] }

/-- An overdue goal: the target date is `now` itself, 500 still missing. -/
def exGoalE : Goal :=
  { id := 1, user_id := 1, title := "Due", target_amount := 1000,
    current_amount := 500, target_date := dOct12 }

/-- One completed 100 deposit created on 2026-10-01. -/
def exDbF : DB :=
  { goals := [],
    txs := [{ id := 1, user_id := 1, goal_id := 1, amount := 100,
              transaction_type := .deposit, method := .mpesa,
              status := .completed, created_at := dOct1 }] }

/-- An already-completed goal, `completed_at` stamped on 2026-10-05. -/
def exGoalG : Goal :=
  { id := 1, user_id := 1, title := "Done", target_amount := 1000,
    current_amount := 1000, target_date := dNov10, status := .completed,
    completed_at := some dOct5 }

def exDbG : DB := { goals := [exGoalG], txs := [] }

/-- Two users' records side by side, for the access-control witness. -/
def exDbH : DB :=
  { goals := [exGoalA, { exGoalA with id := 2, user_id := 2 }],
    txs := [exTxA, { exTxA with id := 2, user_id := 2, goal_id := 2 }] }

def exPaymentReq : MPesaPaymentRequest :=
  { goal_id := 1, amount := 200, phone_number := "254700000000",
    account_number := "ACC1" }

def goalTargetOf (db : DB) (gid : Nat) : Option ℚ :=
  (db.goals.find? (fun g => g.id == gid)).map (·.target_amount)

/-- The status-reset update request `{"status": "active"}`. -/
def exStatusReset : GoalUpdate := { status := some .active }

/-! ## Helper lemmas. -/

theorem find?_filter_of_imp {α : Type _} (p q : α → Bool) (l : List α)
    (h : ∀ a, p a = true → q a = true) : (l.filter q).find? p = l.find? p := by
  induction l with
  | nil => rfl
  | cons a l ih =>
    by_cases hq : q a = true
    · rw [List.filter_cons_of_pos hq]
      by_cases hp : p a = true
      · rw [List.find?_cons_of_pos _ hp, List.find?_cons_of_pos _ hp]
      · rw [List.find?_cons_of_neg _ hp, List.find?_cons_of_neg _ hp, ih]
    · have hp : ¬ p a = true := fun hpa => hq (h a hpa)
      rw [List.filter_cons_of_neg hq, ih, List.find?_cons_of_neg _ hp]

theorem filter_filter_of_imp {α : Type _} (p q : α → Bool) (l : List α)
    (h : ∀ a, p a = true → q a = true) : (l.filter q).filter p = l.filter p := by
  induction l with
  | nil => rfl
  | cons a l ih =>
    by_cases hq : q a = true
    · by_cases hp : p a = true
      · rw [List.filter_cons_of_pos hq, List.filter_cons_of_pos hp,
          List.filter_cons_of_pos hp, ih]
      · rw [List.filter_cons_of_pos hq, List.filter_cons_of_neg hp,
          List.filter_cons_of_neg hp, ih]
    · have hp : ¬ p a = true := fun hpa => hq (h a hpa)
      rw [List.filter_cons_of_neg hq, List.filter_cons_of_neg hp, ih]

theorem mem_of_mem_insertByCreatedDesc {a t : Txn} {l : List Txn}
    (h : a ∈ insertByCreatedDesc t l) : a = t ∨ a ∈ l := by
  induction l with
  | nil => simpa [insertByCreatedDesc] using h
  | cons u us ih =>
    rw [insertByCreatedDesc] at h
    split at h
    · exact (List.mem_cons.mp h).imp_right id
    · rcases List.mem_cons.mp h with h | h
      · exact .inr (h ▸ List.mem_cons_self _ _)
      · exact (ih h).imp_right (List.mem_cons_of_mem _)

theorem mem_of_mem_sortByCreatedDesc {a : Txn} {l : List Txn}
    (h : a ∈ sortByCreatedDesc l) : a ∈ l := by
  induction l with
  | nil => simp [sortByCreatedDesc] at h
  | cons u us ih =>
    rw [sortByCreatedDesc, List.foldr_cons] at h
    rcases mem_of_mem_insertByCreatedDesc h with h | h
    · exact h ▸ List.mem_cons_self _ _
    · exact List.mem_cons_of_mem _ (ih h)

theorem map_eq_self_of_forall {α : Type _} (f : α → α) (l : List α)
    (h : ∀ a ∈ l, f a = a) : l.map f = l := by
  induction l with
  | nil => rfl
  | cons a l ih =>
    rw [List.map_cons, h a (.head _), ih (fun a ha => h a (.tail _ ha))]

theorem completeCheck_target (g : Goal) (now : DateTime) :
    (completeCheck g now).target_amount = g.target_amount := by
  unfold completeCheck
  split <;> rfl

theorem completeCheck_current (g : Goal) (now : DateTime) :
    (completeCheck g now).current_amount = g.current_amount := by
  unfold completeCheck
  split <;> rfl

theorem completeCheck_user_id (g : Goal) (now : DateTime) :
    (completeCheck g now).user_id = g.user_id := by
  unfold completeCheck
  split <;> rfl

theorem completeCheck_status_of_ge (g : Goal) (now : DateTime)
    (h : g.target_amount ≤ g.current_amount) :
    (completeCheck g now).status = .completed := by
  unfold completeCheck
  by_cases hc : g.status = .completed
  · rw [if_neg (by simp [hc])]
    exact hc
  · rw [if_pos (by simp [h, hc])]

theorem completeCheck_of_completed (g : Goal) (now : DateTime)
    (h : g.status = .completed) : completeCheck g now = g := by
  unfold completeCheck
  rw [if_neg (by simp [h])]

theorem window_end_toRat (t : DateTime) :
    ({ ord := t.ord + 31, frac := t.frac } : DateTime).toRat = t.toRat + 31 := by
  unfold DateTime.toRat
  push_cast
  ring

theorem sum_map_filter_eq_zero (p : Txn → Bool) (l : List Txn)
    (hp : ∀ t ∈ l, ¬ p t = true) : ((l.filter p).map (·.amount)).sum = 0 := by
  rw [List.filter_eq_nil_iff.mpr hp]
  rfl

theorem mem_append_map_fresh (f : Txn → Txn) (l : List Txn) (tx : Txn)
    (hf : ∀ t2 ∈ l, f t2 = t2) : ∀ t ∈ (l ++ [tx]).map f, t ∈ l ∨ t = f tx := by
  intro t ht
  rw [List.map_append, map_eq_self_of_forall f l hf] at ht
  rcases List.mem_append.mp ht with h | h
  · exact .inl h
  · simp only [List.map_cons, List.map_nil, List.mem_singleton] at h
    exact .inr h

theorem daily_average_nonneg (g : Goal) (now : DateTime) (db : DB)
    (hpos : ∀ t ∈ db.txs, 0 ≤ t.amount) : 0 ≤ daily_average_savings g now db := by
  unfold daily_average_savings
  apply div_nonneg _ (by norm_num)
  apply List.sum_nonneg
  intro x hx
  obtain ⟨t, ht, rfl⟩ := List.mem_map.mp hx
  exact hpos t (List.mem_filter.mp ht).1

/-! ## Claim theorems. -/

/-- C1: the ledger invariant (completed deposits minus completed withdrawals
equal `current_amount`) holds before, but is destroyed by the
`check_mpesa_payment_status` settlement path, which marks the pending 500
deposit `completed` without crediting the goal: after it the completed
deposits sum to 500 while the goal still holds 0. -/
theorem ledger_invariant_lost_by_status_poll :
    ledgerInvariant exDbA
    ∧ txStatusOf (check_mpesa_payment_status 1 dOct5 exDbA) 1 = some .completed
    ∧ ¬ ledgerInvariant (check_mpesa_payment_status 1 dOct5 exDbA) := by
  decide

/-- C2: settlement via `process_mpesa_payment` is not idempotent. After the
first call the 500 deposit is `completed` and the goal holds 500; a second
call on the already-terminal transaction credits the goal again, to 1000,
instead of being a no-op. -/
theorem double_settlement_double_credits :
    goalAmount (process_mpesa_payment 1 dOct5 "MP1" exDbA) 1 = some 500
    ∧ txStatusOf (process_mpesa_payment 1 dOct5 "MP1" exDbA) 1 = some .completed
    ∧ goalAmount
        (process_mpesa_payment 1 dOct6 "MP2" (process_mpesa_payment 1 dOct5 "MP1" exDbA)) 1
      = some 1000 := by
  decide

/-- C3 counterexample: a settlement credit that brings an `active` goal to
`current_amount = target_amount = 1000` leaves the status `active` and
`completed_at` unset — the completion transition does not happen at the step
that applies the credit. -/
theorem settlement_credit_skips_completion_transition :
    goalAmount (process_mpesa_payment 1 dOct5 "MP1" exDbB) 1 = some 1000
    ∧ goalTargetOf (process_mpesa_payment 1 dOct5 "MP1" exDbB) 1 = some 1000
    ∧ goalStatusOf (process_mpesa_payment 1 dOct5 "MP1" exDbB) 1 = some .active
    ∧ goalCompletedAt (process_mpesa_payment 1 dOct5 "MP1" exDbB) 1 = some none := by
  decide

/-- C5 counterexample: a category whose summed target amount is 0 but whose
summed current amount is 5 is reported with percentage 500 (= 5 / 1 * 100 via
Python's `or 1`), not 0. -/
theorem zero_target_category_percentage_not_zero :
    category_breakdown 1 exDbD
      = [{ category := "other", current_amount := 5, target_amount := 0,
           percentage := 500 }]
    ∧ ¬ (∀ r ∈ category_breakdown 1 exDbD, r.target_amount = 0 → r.percentage = 0) := by
  decide

/-- C6 counterexample: for a goal due today with 500 still missing
(`days_remaining = 0`), the code reports a required daily rate of 0, while the
claim demands the full remaining 500. -/
theorem overdue_goal_required_rate_zero :
    daily_required_savings exGoalE dOct12 = 0
    ∧ exGoalE.target_amount - exGoalE.current_amount = 500
    ∧ dailyRequiredRateSpec exGoalE dOct12 = 500 := by
  decide

/-- C7 counterexample: on a fully funded goal with no transactions, velocity 0
meets the required rate 0 and the user-level computation says on-track — but
the goal-level `get_goal_analytics` endpoint is not governed by that (or any)
on-track definition: it computes no on-track value at all, raising NameError
on every goal the caller owns because goals.py never imports `Transaction`. -/
theorem goal_level_on_track_never_computed :
    daily_required_savings exGoalC dOct12 ≤ daily_average_savings exGoalC dOct12 exDbC
    ∧ (goalProgressEntry exGoalC dOct12 exDbC).is_on_track = true
    ∧ get_goal_analytics 1 1 exDbC
      = .error (.nameError "name 'Transaction' is not defined") :=
  ⟨by decide, by decide, rfl⟩

/-- C8 counterexample: with `now = 2026-10-12` and a single completed 100
deposit created 2026-10-01, the trend series has an entry whose amount is not
the sum over the calendar month it is labelled with: the bucket labelled
2026-09 spans [2026-09-01, 2026-10-02) and counts the October deposit. -/
theorem trend_bucket_not_calendar_month :
    ¬ (∀ e ∈ monthly_trends 1 dOct12 exDbF, e.amount = calendarMonthSum 1 e.month exDbF) := by
  decide

/-- C9 counterexample: updating an already-completed goal with
`{"status": "active"}` re-triggers the completion check and overwrites
`completed_at` (stamped 2026-10-05) with the update's time 2026-10-06. -/
theorem completed_at_restamped_on_status_reset :
    exGoalG.completed_at = some dOct5
    ∧ (update_goal 1 1 exStatusReset dOct6 exDbG).toOption.map (fun p => p.2.completed_at)
      = some (some dOct6)
    ∧ dOct6 ≠ dOct5 := by
  decide

/-- C3 amended: the settlement credit path never changes any goal's status or
`completed_at`; the completion transition lives only in `update_goal`'s check
(`completeCheck`), which on a goal with `current_amount >= target_amount` sets
the status to `completed`, stamps `completed_at` exactly when the goal was not
already completed, and is idempotent. -/
theorem completion_transition_only_in_update_goal :
    (∀ (tid : Nat) (now : DateTime) (ref : String) (db : DB),
      (process_mpesa_payment tid now ref db).goals.map (fun g => (g.status, g.completed_at))
        = db.goals.map (fun g => (g.status, g.completed_at)))
    ∧ (∀ (g : Goal) (now : DateTime), g.target_amount ≤ g.current_amount →
        (completeCheck g now).status = .completed
        ∧ (completeCheck g now).completed_at
          = (if g.status = .completed then g.completed_at else some now))
    ∧ (∀ (g : Goal) (now now' : DateTime),
        completeCheck (completeCheck g now) now' = completeCheck g now) := by
  refine ⟨?_, ?_, ?_⟩
  · intro tid now ref db
    unfold process_mpesa_payment
    cases htx : db.txs.find? (fun t => t.id == tid) with
    | none => rfl
    | some tx =>
      dsimp
      cases hg : db.goals.find? (fun g => g.id == tx.goal_id) with
      | none => rfl
      | some g0 =>
        dsimp
        rw [List.map_map]
        apply List.map_congr_left
        intro g _
        dsimp [Function.comp]
        split <;> rfl
  · intro g now hge
    unfold completeCheck
    by_cases hc : g.status = .completed
    · rw [if_neg (by simp [hc]), if_pos hc]
      exact ⟨hc, rfl⟩
    · rw [if_pos (by simp [hge, hc]), if_neg hc]
      exact ⟨rfl, rfl⟩
  · intro g now now'
    unfold completeCheck
    by_cases hc : (g.target_amount ≤ g.current_amount && !(g.status == GoalStatus.completed)) = true
    · rw [if_pos hc]
      dsimp
      rw [if_neg (by simp)]
    · rw [if_neg hc, if_neg hc]

/-- C3 witness: a goal credited up to its 1000 target is completed and
timestamped by the `update_goal` check. -/
theorem completion_transition_only_in_update_goal_witness :
    (completeCheck { exGoalA with current_amount := 1000 } dOct5).status = .completed
    ∧ (completeCheck { exGoalA with current_amount := 1000 } dOct5).completed_at
      = some dOct5 := by
  have h := completion_transition_only_in_update_goal.2.1
    { exGoalA with current_amount := 1000 } dOct5 (by decide)
  refine ⟨h.1, ?_⟩
  rw [h.2]
  decide

/-- C4: when the gateway call raises, `initiate_mpesa_payment` leaves the
goals table untouched (so no partial credit), appends the newly created
transaction in the terminal `failed` state, and surfaces an HTTP 400. -/
theorem gateway_error_fails_transaction_leaves_goals
    (uid : Nat) (p : MPesaPaymentRequest) (e : String) (newId : Nat) (now : DateTime)
    (db : DB) (goal0 : Goal)
    (hfind : db.goals.find? (fun g => g.id == p.goal_id && g.user_id == uid) = some goal0)
    (hfresh : ∀ t ∈ db.txs, t.id ≠ newId) :
    (initiate_mpesa_payment uid p (.error e) newId now db).1.goals = db.goals
    ∧ (initiate_mpesa_payment uid p (.error e) newId now db).1.txs
      = db.txs ++ [{ mkMpesaTx uid newId now p goal0.title with status := .failed }]
    ∧ (initiate_mpesa_payment uid p (.error e) newId now db).2
      = .error (.badRequest ("Payment initiation failed: " ++ e)) := by
  unfold initiate_mpesa_payment
  rw [hfind]
  dsimp
  refine ⟨rfl, ?_, rfl⟩
  rw [List.map_append]
  have h1 : db.txs.map (fun t =>
      if t.id == newId then { t with status := TxStatus.failed } else t) = db.txs := by
    apply map_eq_self_of_forall
    intro t ht
    rw [if_neg (by simpa using hfresh t ht)]
  rw [h1]
  simp [mkMpesaTx]

/-- C4 witness: a concrete gateway raise on goal 1 leaves the goal table as it
was, appends a failed transaction, and returns HTTP 400. -/
theorem gateway_error_fails_transaction_leaves_goals_witness :
    (initiate_mpesa_payment 1 exPaymentReq (.error "boom") 2 dOct5 exDbA).1.goals
      = exDbA.goals
    ∧ (initiate_mpesa_payment 1 exPaymentReq (.error "boom") 2 dOct5 exDbA).1.txs
      = exDbA.txs ++ [{ mkMpesaTx 1 2 dOct5 exPaymentReq exGoalA.title with status := .failed }]
    ∧ (initiate_mpesa_payment 1 exPaymentReq (.error "boom") 2 dOct5 exDbA).2
      = .error (.badRequest ("Payment initiation failed: " ++ "boom")) :=
  gateway_error_fails_transaction_leaves_goals 1 exPaymentReq "boom" 2 dOct5 exDbA exGoalA
    (by decide) (by decide)

/-- C5 amended: every breakdown entry divides by `target or 1`, which is never
zero, so the computation never divides by zero; the reported percentage is
`current / target * 100` when the summed target is nonzero and
`current * 100` (not 0) when the summed target is zero. -/
theorem category_percentage_formula (uid : Nat) (db : DB) :
    ∀ r ∈ category_breakdown uid db,
      (r.target_amount = 0 → r.percentage = r.current_amount * 100)
      ∧ (r.target_amount ≠ 0 → r.percentage = r.current_amount / r.target_amount * 100)
      ∧ (if r.target_amount == 0 then (1 : ℚ) else r.target_amount) ≠ 0 := by
  intro r hr
  unfold category_breakdown at hr
  obtain ⟨c, hc, rfl⟩ := List.mem_map.mp hr
  dsimp
  by_cases h0 : (((db.goals.filter (fun g => g.user_id == uid)).filter
      (fun g => g.category == c)).map (·.target_amount)).sum = 0
  · rw [if_pos (by simpa using h0)]
    refine ⟨fun _ => by rw [div_one], fun hne => absurd h0 hne, by norm_num⟩
  · rw [if_neg (by simpa using h0)]
    exact ⟨fun h => absurd h h0, fun _ => rfl, h0⟩

/-- C5 witness: the single "other" category of the zero-target database is
reported with percentage `current * 100 = 500`. -/
theorem category_percentage_formula_witness :
    ({ category := "other", current_amount := 5, target_amount := 0,
       percentage := 500 } : CategoryRow).percentage
      = ({ category := "other", current_amount := 5, target_amount := 0,
           percentage := 500 } : CategoryRow).current_amount * 100 :=
  ((category_percentage_formula 1 exDbD _ (by decide)).1 (by decide)).trans (by decide)

/-- C6 amended: the code's required daily rate agrees with the spec formula
`remaining / max(days_remaining, 1)` whenever the target date is still in the
future, but is the constant 0 (not the remaining amount) once
`days_remaining <= 0`. -/
theorem daily_required_rate_formula (g : Goal) (now : DateTime) :
    (0 < daysBetween now g.target_date →
      daily_required_savings g now
        = (g.target_amount - g.current_amount) / ((daysBetween now g.target_date : Int) : ℚ)
      ∧ daily_required_savings g now = dailyRequiredRateSpec g now)
    ∧ (daysBetween now g.target_date ≤ 0 → daily_required_savings g now = 0) := by
  constructor
  · intro h
    have h1 : max (daysBetween now g.target_date) 1 = daysBetween now g.target_date := by
      omega
    have h0 : max (max (daysBetween now g.target_date) 0) 1
        = daysBetween now g.target_date := by
      omega
    constructor
    · unfold daily_required_savings
      rw [if_pos h, h1]
    · unfold daily_required_savings dailyRequiredRateSpec
      dsimp only
      rw [if_pos h, h1, h0]
  · intro h
    unfold daily_required_savings
    rw [if_neg (by omega)]

/-- C6 witness: the spec's scenario — target 1000, current 500, 29 days
remaining — yields the required rate 500/29. -/
theorem daily_required_rate_formula_witness :
    daily_required_savings { exGoalE with target_date := dNov10 } dOct12 = 500 / 29 := by
  have h := (daily_required_rate_formula { exGoalE with target_date := dNov10 } dOct12).1
    (by decide)
  rw [h.1]
  decide

/-- C7 amended: the spec rule `RecentVelocity(goal, 30) >= DailyRequiredRate`
with ties counting as on-track governs only the user-level computation of
`get_goal_progress_analytics`, which it characterizes exactly (given the
non-negative transaction amounts the API validators enforce); the goal-level
`get_goal_analytics` endpoint never produces an on-track value — on every
goal the caller owns it raises `NameError`, since goals.py uses `Transaction`
at line 183 without importing it. -/
theorem on_track_rule_governs_only_user_level :
    (∀ (g : Goal) (now : DateTime) (db : DB), (∀ t ∈ db.txs, 0 ≤ t.amount) →
      ((goalProgressEntry g now db).is_on_track = true
        ↔ daily_required_savings g now ≤ daily_average_savings g now db))
    ∧ (∀ (uid gid : Nat) (db : DB) (g0 : Goal),
        db.goals.find? (fun g => g.id == gid && g.user_id == uid) = some g0 →
        get_goal_analytics uid gid db
          = .error (.nameError "name 'Transaction' is not defined")) := by
  constructor
  · intro g now db hpos
    unfold goalProgressEntry
    dsimp
    by_cases h : 0 < daily_required_savings g now
    · rw [if_pos h]
      exact decide_eq_true_iff
    · rw [if_neg h]
      simp only [true_iff]
      exact le_trans (not_lt.mp h) (daily_average_nonneg g now db hpos)
  · intro uid gid db g0 hfind
    unfold get_goal_analytics
    rw [hfind]

/-- C7 witness: on the fully funded goal with no transactions the user-level
computation reports on-track (velocity 0 meets required rate 0), while the
owned goal-level call ends in the NameError. -/
theorem on_track_rule_governs_only_user_level_witness :
    (goalProgressEntry exGoalC dOct12 exDbC).is_on_track = true
    ∧ get_goal_analytics 1 1 exDbC
      = .error (.nameError "name 'Transaction' is not defined") :=
  ⟨(on_track_rule_governs_only_user_level.1 exGoalC dOct12 exDbC (by decide)).mpr
      (by decide),
    on_track_rule_governs_only_user_level.2 1 1 exDbC exGoalC (by rfl)⟩

/-- C8 amended: the trend series has 12 entries ordered oldest bucket first,
and entry `i` reports the deposit sum over the 31-day half-open window that
starts `30 * (11 - i)` days before the first of the current month (with the
current time of day), labelled by that start's year-month; these windows are
31-day strides stepped back 30 days, not calendar months, but a window with no
matching deposit does report 0 rather than an error or an omission. -/
theorem monthly_trends_window_structure (uid : Nat) (now : DateTime) (db : DB) :
    (monthly_trends uid now db).length = 12
    ∧ (∀ i, i < 12 →
        (monthly_trends uid now db).getD i { month := (0, 0), amount := 0 }
          = { month := monthKey (trendWindowStart now (11 - i)),
              amount := trendWindowSum uid now db (11 - i) })
    ∧ (∀ i, (∀ t ∈ db.txs, t.user_id = uid → t.transaction_type = .deposit →
          t.status = .completed →
          ¬ ((trendWindowStart now i).toRat ≤ t.created_at.toRat
             ∧ t.created_at.toRat < (trendWindowStart now i).toRat + 31)) →
        trendWindowSum uid now db i = 0) := by
  refine ⟨by simp [monthly_trends], ?_, ?_⟩
  · intro i hi
    have hlen : ((List.range 12).map (fun i =>
        ({ month := monthKey (trendWindowStart now i),
           amount := trendWindowSum uid now db i } : MonthlyTrend))).length = 12 := by
      simp
    rw [monthly_trends, List.getD_eq_getElem?_getD,
      List.getElem?_reverse (by omega), hlen, List.getElem?_map,
      List.getElem?_range (by omega)]
    rfl
  · intro i h
    unfold trendWindowSum
    dsimp only
    apply sum_map_filter_eq_zero
    intro t ht hc
    simp only [Bool.and_eq_true, beq_iff_eq, decide_eq_true_eq] at hc
    obtain ⟨⟨⟨⟨hu, hd⟩, hs⟩, hle⟩, hlt⟩ := hc
    rw [window_end_toRat] at hlt
    exact h t ht hu hd hs ⟨hle, hlt⟩

/-- C8 witness: at 2026-10-12 the oldest entry of the series is the bucket
starting 330 days before 2026-10-01, and its deposit sum over the concrete
database is 0. -/
theorem monthly_trends_window_structure_witness :
    (monthly_trends 1 dOct12 exDbF).getD 0 { month := (0, 0), amount := 0 }
      = { month := monthKey (trendWindowStart dOct12 11),
          amount := trendWindowSum 1 dOct12 exDbF 11 }
    ∧ trendWindowSum 1 dOct12 exDbF 11 = 0 :=
  ⟨(monthly_trends_window_structure 1 dOct12 exDbF).2.1 0 (by norm_num),
    (monthly_trends_window_structure 1 dOct12 exDbF).2.2 11 (by decide)⟩

/-- C9 amended: a successful `update_goal` re-evaluates the completion
condition after applying the submitted fields, so any update that leaves
`current_amount >= target_amount` ends with status `completed` (lowering the
target below the balance completes a goal without any settlement); and when
the update does not touch the status field, an already-completed goal keeps
both its `completed` status and its original `completed_at`. An update that
resets the status away from `completed` re-runs the check and re-stamps
`completed_at` (the counterexample). -/
theorem update_goal_completion_reevaluation
    (uid gid : Nat) (u : GoalUpdate) (now : DateTime) (db : DB) (g0 : Goal)
    (hfind : db.goals.find? (fun g => g.id == gid && g.user_id == uid) = some g0)
    (db' : DB) (g' : Goal)
    (hok : update_goal uid gid u now db = .ok (db', g')) :
    (g'.target_amount ≤ g'.current_amount → g'.status = .completed)
    ∧ (u.status = none → g0.status = .completed →
        g'.status = .completed ∧ g'.completed_at = g0.completed_at) := by
  unfold update_goal at hok
  rw [hfind] at hok
  dsimp at hok
  cases hok
  constructor
  · intro hge
    rw [completeCheck_target, completeCheck_current] at hge
    exact completeCheck_status_of_ge _ _ hge
  · intro hnone hcomp
    have hst : ({ applyUpdate g0 u with updated_at := now } : Goal).status
        = GoalStatus.completed := by
      unfold applyUpdate
      dsimp
      rw [hnone]
      exact hcomp
    rw [completeCheck_of_completed _ _ hst]
    exact ⟨hst, rfl⟩

/-- C9 witness: an update that touches nothing on an already-completed goal
keeps the `completed` status and the original `completed_at`. -/
theorem update_goal_completion_reevaluation_witness :
    ({ exGoalG with updated_at := dOct6 } : Goal).status = .completed
    ∧ ({ exGoalG with updated_at := dOct6 } : Goal).completed_at
      = exGoalG.completed_at :=
  (update_goal_completion_reevaluation 1 1 {} dOct6 exDbG exGoalG (by decide)
      { exDbG with goals := [{ exGoalG with updated_at := dOct6 }] }
      { exGoalG with updated_at := dOct6 } (by rfl)).2 rfl (by decide)

/-- C10: every embedded goal/transaction endpoint is scoped to the
authenticated caller. The read endpoints (`get_goal`, `get_transaction`, the
`get_goals` and `get_transactions` listings, `get_goal_analytics`) return only
caller-owned rows and behave identically when every other user's rows are
deleted — a row owned by someone else is indistinguishable from a missing one.
The mutating endpoints change only caller-owned state: a successful
`update_goal` returns and writes a goal owned by the caller, leaving every
other row of both tables as it was, and 404s (with no state change) when the
id is not owned by the caller; `initiate_mpesa_payment` never touches the
goals table, only ever adds or rewrites a transaction owned by the caller
(given a fresh primary key), and 404s leaving the database untouched when the
goal id is not owned by the caller. -/
theorem endpoints_scoped_to_caller (uid : Nat) (db : DB) :
    (∀ gid g, get_goal uid gid db = .ok g → g.user_id = uid)
    ∧ (∀ gid, get_goal uid gid (restrictTo uid db) = get_goal uid gid db)
    ∧ (∀ tid t, get_transaction uid tid db = .ok t → t.user_id = uid)
    ∧ (∀ tid, get_transaction uid tid (restrictTo uid db) = get_transaction uid tid db)
    ∧ (∀ gf sf skip limit t, t ∈ get_transactions uid gf sf skip limit db →
        t.user_id = uid)
    ∧ (∀ gf sf skip limit,
        get_transactions uid gf sf skip limit (restrictTo uid db)
          = get_transactions uid gf sf skip limit db)
    ∧ (∀ sf cf skip limit g, g ∈ get_goals uid sf cf skip limit db → g.user_id = uid)
    ∧ (∀ sf cf skip limit,
        get_goals uid sf cf skip limit (restrictTo uid db)
          = get_goals uid sf cf skip limit db)
    ∧ (∀ gid u now db' g', update_goal uid gid u now db = .ok (db', g') →
        g'.user_id = uid ∧ db'.txs = db.txs
        ∧ ∀ g ∈ db'.goals, g ∈ db.goals ∨ g = g')
    ∧ (∀ gid u now, (∀ g ∈ db.goals, ¬ (g.id = gid ∧ g.user_id = uid)) →
        update_goal uid gid u now db = .error (.notFound "Goal not found"))
    ∧ (∀ p gw newId now,
        (initiate_mpesa_payment uid p gw newId now db).1.goals = db.goals)
    ∧ (∀ p gw newId now, (∀ t ∈ db.txs, t.id ≠ newId) →
        ∀ t ∈ (initiate_mpesa_payment uid p gw newId now db).1.txs,
          t ∈ db.txs ∨ t.user_id = uid)
    ∧ (∀ p gw newId now, (∀ g ∈ db.goals, ¬ (g.id = p.goal_id ∧ g.user_id = uid)) →
        initiate_mpesa_payment uid p gw newId now db
          = (db, .error (.notFound "Goal not found")))
    ∧ (∀ gid, get_goal_analytics uid gid (restrictTo uid db)
        = get_goal_analytics uid gid db) := by
  refine ⟨?_, ?_, ?_, ?_, ?_, ?_, ?_, ?_, ?_, ?_, ?_, ?_, ?_, ?_⟩
  · intro gid g hok
    unfold get_goal at hok
    cases hfind : db.goals.find? (fun g => g.id == gid && g.user_id == uid) with
    | none => rw [hfind] at hok; cases hok
    | some g1 =>
      rw [hfind] at hok
      cases hok
      have := List.find?_some hfind
      simp only [Bool.and_eq_true, beq_iff_eq] at this
      exact this.2
  · intro gid
    unfold get_goal restrictTo
    rw [find?_filter_of_imp]
    intro a ha
    simp only [Bool.and_eq_true, beq_iff_eq] at ha
    simp [ha.2]
  · intro tid t hok
    unfold get_transaction at hok
    cases hfind : db.txs.find? (fun t => t.id == tid && t.user_id == uid) with
    | none => rw [hfind] at hok; cases hok
    | some t1 =>
      rw [hfind] at hok
      cases hok
      have := List.find?_some hfind
      simp only [Bool.and_eq_true, beq_iff_eq] at this
      exact this.2
  · intro tid
    unfold get_transaction restrictTo
    rw [find?_filter_of_imp]
    intro a ha
    simp only [Bool.and_eq_true, beq_iff_eq] at ha
    simp [ha.2]
  · intro gf sf skip limit t ht
    unfold get_transactions at ht
    dsimp only at ht
    have h1 := List.drop_subset _ _ (List.take_subset _ _ ht)
    have h2 := List.mem_filter.mp (mem_of_mem_sortByCreatedDesc h1)
    have h3 := h2.2
    simp only [Bool.and_eq_true, beq_iff_eq] at h3
    exact h3.1.1
  · intro gf sf skip limit
    unfold get_transactions restrictTo
    dsimp only
    rw [filter_filter_of_imp]
    intro a ha
    simp only [Bool.and_eq_true, beq_iff_eq] at ha
    simp [ha.1.1]
  · intro sf cf skip limit g hg
    unfold get_goals at hg
    have h1 := List.mem_filter.mp (List.drop_subset _ _ (List.take_subset _ _ hg))
    have h2 := h1.2
    simp only [Bool.and_eq_true, beq_iff_eq] at h2
    exact h2.1.1
  · intro sf cf skip limit
    unfold get_goals restrictTo
    dsimp only
    rw [filter_filter_of_imp]
    intro a ha
    simp only [Bool.and_eq_true, beq_iff_eq] at ha
    simp [ha.1.1]
  · intro gid u now db' g' hok
    unfold update_goal at hok
    cases hfind : db.goals.find? (fun g => g.id == gid && g.user_id == uid) with
    | none => rw [hfind] at hok; cases hok
    | some g0 =>
      rw [hfind] at hok
      dsimp at hok
      cases hok
      have hg0 := List.find?_some hfind
      simp only [Bool.and_eq_true, beq_iff_eq] at hg0
      refine ⟨?_, rfl, ?_⟩
      · rw [completeCheck_user_id]
        exact hg0.2
      · intro g hg
        obtain ⟨orig, horig, rfl⟩ := List.mem_map.mp hg
        by_cases hid : (orig.id == gid) = true
        · exact .inr (if_pos hid)
        · rw [if_neg hid]
          exact .inl horig
  · intro gid u now hnone
    have h : db.goals.find? (fun g => g.id == gid && g.user_id == uid) = none := by
      rw [List.find?_eq_none]
      intro g hg
      simp only [Bool.and_eq_true, beq_iff_eq]
      intro hc
      exact hnone g hg ⟨hc.1, hc.2⟩
    unfold update_goal
    rw [h]
  · intro p gw newId now
    unfold initiate_mpesa_payment
    cases hfind : db.goals.find? (fun g => g.id == p.goal_id && g.user_id == uid) with
    | none => rfl
    | some g0 => cases gw <;> rfl
  · intro p gw newId now hfresh t ht
    unfold initiate_mpesa_payment at ht
    cases hfind : db.goals.find? (fun g => g.id == p.goal_id && g.user_id == uid) with
    | none =>
      rw [hfind] at ht
      exact .inl ht
    | some g0 =>
      rw [hfind] at ht
      cases gw with
      | ok cid =>
        dsimp only at ht
        rcases mem_append_map_fresh _ _ _
            (fun t2 ht2 => if_neg (by simpa using hfresh t2 ht2)) t ht with h | h
        · exact .inl h
        · refine .inr ?_
          rw [h]
          simp [mkMpesaTx]
      | error e =>
        dsimp only at ht
        rcases mem_append_map_fresh _ _ _
            (fun t2 ht2 => if_neg (by simpa using hfresh t2 ht2)) t ht with h | h
        · exact .inl h
        · refine .inr ?_
          rw [h]
          simp [mkMpesaTx]
  · intro p gw newId now hnone
    have h : db.goals.find? (fun g => g.id == p.goal_id && g.user_id == uid) = none := by
      rw [List.find?_eq_none]
      intro g hg
      simp only [Bool.and_eq_true, beq_iff_eq]
      intro hc
      exact hnone g hg ⟨hc.1, hc.2⟩
    unfold initiate_mpesa_payment
    rw [h]
  · intro gid
    unfold get_goal_analytics restrictTo
    rw [find?_filter_of_imp]
    intro a ha
    simp only [Bool.and_eq_true, beq_iff_eq] at ha
    simp [ha.2]

/-- C10 witness: in the two-user database the caller's own goal is returned
and carries the caller's user id, and an update aimed at a goal the caller
does not own is reported as not found. -/
theorem endpoints_scoped_to_caller_witness :
    exGoalA.user_id = 1
    ∧ update_goal 2 1 {} dOct6 exDbG = .error (.notFound "Goal not found") :=
  ⟨(endpoints_scoped_to_caller 1 exDbH).1 1 exGoalA (by rfl),
    (endpoints_scoped_to_caller 2 exDbG).2.2.2.2.2.2.2.2.2.1 1 {} dOct6 (by decide)⟩

end Savings
